import Mathlib

/-!
Verification development for the arcane-agent communication and
task-execution engine.  The Go source is shallowly embedded: pure control
flow becomes Lean functions, Go interface values become the inductive
type GoValue, fallible calls return Except or carry an explicit Go style
value-and-error pair, and the event loops become functions over explicit
lists of events.  External collaborators (the Docker client, the network)
are passed in as function parameters.
-/

namespace ArcaneAgent

/-! ## Go values and payloads

A Go value of type map[string]interface\x7b\x7d is modelled as an
association list; nil is modelled by GoValue.null. -/

inductive GoValue where
  | null
  | str (s : String)
  | num (n : Int)
  | bool (b : Bool)
  | arr (elems : List GoValue)
  | obj (entries : List (String × GoValue))

abbrev Payload := List (String × GoValue)

/-- The Go type assertion payload[key].(string): succeeds only when the key
is present and holds a string value. -/
def lookupString (p : Payload) (key : String) : Option String :=
  match p.lookup key with
  | some (GoValue.str s) => some s
  | _ => none

/-! ## pkg/types and DTO types (pkg/types/message.go, internal/agent/dto.go) -/

structure TaskRequest where
  id : String
  type : String
  payload : Payload

/-- AgentTaskStatus is a string type in dto.go. -/
abbrev AgentTaskStatus := String

def TaskStatusCompleted : AgentTaskStatus := "completed"

def TaskStatusFailed : AgentTaskStatus := "failed"

/-- TasksResponse (unnamed/part_002): the pending-tasks polling response
\x7bsuccess, tasks, error\x7d. -/
structure TasksResponse where
  success : Bool
  data : List TaskRequest
  error : String

/-- SubmitTaskResultDto (internal/agent/dto.go): status, optional result
map, optional error string. -/
structure SubmitTaskResultDto where
  status : AgentTaskStatus
  result : Option (List (String × GoValue))
  error : Option String

/-! ## Task manager (internal/tasks/manager.go, first revision)

A Go call returning (interface\x7b\x7d, error) is modelled as an
ExecReturn pair; result GoValue.null models a nil interface value. -/

structure ExecReturn where
  result : GoValue
  err : Option String

/-- The external collaborators reached from Manager.ExecuteTask.  Each
field stands for the body of the corresponding manager helper or Docker
client call, which only parses the payload and performs external Docker
or filesystem work; no claim depends on those bodies.  The image_pull
branch is the exception: executeImagePull is embedded fully below, and
pullImage here stands for dockerClient.PullImage alone. -/
structure TaskEnv where
  dockerCommand : Payload → ExecReturn
  containerStart : Payload → ExecReturn
  containerStop : Payload → ExecReturn
  containerRestart : Payload → ExecReturn
  containerList : ExecReturn
  containerRemove : Payload → ExecReturn
  containerLogs : Payload → ExecReturn
  pullImage : String → ExecReturn
  imageList : ExecReturn
  systemInfo : ExecReturn
  metrics : ExecReturn
  composeUp : Payload → ExecReturn
  composeDown : Payload → ExecReturn
  composePs : Payload → ExecReturn
  composeLogs : Payload → ExecReturn
  composeDeploy : Payload → ExecReturn
  composeCreateProject : Payload → ExecReturn
  composeUpdateProject : Payload → ExecReturn
  composeDeleteProject : Payload → ExecReturn
  composeListProjects : ExecReturn

/-- Image name resolution in executeImagePull: first the type assertion
payload["imageName"].(string), then payload["image"].(string). -/
def imageNameOf (p : Payload) : Option String :=
  match lookupString p "imageName" with
  | some s => some s
  | none => lookupString p "image"

/-- fmt.Sprintf with verb v on the value kinds that occur in result maps.
Only the string case is exercised by the claims. -/
def goFormat : GoValue → String
  | GoValue.null => "<nil>"
  | GoValue.str s => s
  | GoValue.num n => toString n
  | GoValue.bool b => if b then "true" else "false"
  | GoValue.arr _ => "[]"
  | GoValue.obj _ => "map[]"

/-- The "output" extraction in executeImagePull: if the pull result is a
map, format its "output" entry, otherwise leave output empty. -/
def imagePullOutput (result : GoValue) : String :=
  match result with
  | GoValue.obj m =>
    match m.lookup "output" with
    | some v => goFormat v
    | none => ""
  | _ => ""

/-- Manager.executeImagePull (manager.go lines 172 to 204): a failed
Docker pull is converted into an ok result map with "status"="failed" and
a nil error; a successful pull yields "status"="completed". -/
def executeImagePull (pull : String → ExecReturn) (payload : Payload) : ExecReturn :=
  match imageNameOf payload with
  | none => ⟨GoValue.null, some "missing imageName or image"⟩
  | some image =>
    let call := pull image
    match call.err with
    | some e =>
      ⟨GoValue.obj [("status", GoValue.str "failed"),
                    ("error", GoValue.str ("Failed to pull image " ++ image ++ ": " ++ e))],
       none⟩
    | none =>
      ⟨GoValue.obj [("status", GoValue.str "completed"),
                    ("result", GoValue.obj [("output", GoValue.str (imagePullOutput call.result)),
                                            ("image", GoValue.str image)])],
       none⟩

/-- The task-type strings handled by the switch in Manager.ExecuteTask:
the handler registry. -/
def knownTaskTypes : List String :=
  ["docker_command", "container_start", "container_stop", "container_restart",
   "container_list", "container_remove", "container_logs", "image_pull",
   "image_list", "system_info", "metrics",
   "compose_up", "compose_down", "compose_ps", "compose_logs", "compose_deploy",
   "compose_create_project", "compose_update_project", "compose_delete_project",
   "compose_list_projects"]

/-- Manager.ExecuteTask (manager.go lines 35 to 87): the type switch over
the handler registry; the default branch returns the unknown-task-type
error without calling any handler. -/
def ManagerExecuteTask (env : TaskEnv) (taskType : String) (payload : Payload) : ExecReturn :=
  match taskType with
  | "docker_command" => env.dockerCommand payload
  | "container_start" => env.containerStart payload
  | "container_stop" => env.containerStop payload
  | "container_restart" => env.containerRestart payload
  | "container_list" => env.containerList
  | "container_remove" => env.containerRemove payload
  | "container_logs" => env.containerLogs payload
  | "image_pull" => executeImagePull env.pullImage payload
  | "image_list" => env.imageList
  | "system_info" => env.systemInfo
  | "metrics" => env.metrics
  | "compose_up" => env.composeUp payload
  | "compose_down" => env.composeDown payload
  | "compose_ps" => env.composePs payload
  | "compose_logs" => env.composeLogs payload
  | "compose_deploy" => env.composeDeploy payload
  | "compose_create_project" => env.composeCreateProject payload
  | "compose_update_project" => env.composeUpdateProject payload
  | "compose_delete_project" => env.composeDeleteProject payload
  | "compose_list_projects" => env.composeListProjects
  | _ => ⟨GoValue.null, some ("unknown task type: " ++ taskType)⟩

/-- A concrete environment whose handlers all return a nil value and nil
error; used by witnesses. -/
def defaultEnv : TaskEnv where
  dockerCommand := fun _ => ⟨GoValue.null, none⟩
  containerStart := fun _ => ⟨GoValue.null, none⟩
  containerStop := fun _ => ⟨GoValue.null, none⟩
  containerRestart := fun _ => ⟨GoValue.null, none⟩
  containerList := ⟨GoValue.null, none⟩
  containerRemove := fun _ => ⟨GoValue.null, none⟩
  containerLogs := fun _ => ⟨GoValue.null, none⟩
  pullImage := fun _ => ⟨GoValue.null, none⟩
  imageList := ⟨GoValue.null, none⟩
  systemInfo := ⟨GoValue.null, none⟩
  metrics := ⟨GoValue.null, none⟩
  composeUp := fun _ => ⟨GoValue.null, none⟩
  composeDown := fun _ => ⟨GoValue.null, none⟩
  composePs := fun _ => ⟨GoValue.null, none⟩
  composeLogs := fun _ => ⟨GoValue.null, none⟩
  composeDeploy := fun _ => ⟨GoValue.null, none⟩
  composeCreateProject := fun _ => ⟨GoValue.null, none⟩
  composeUpdateProject := fun _ => ⟨GoValue.null, none⟩
  composeDeleteProject := fun _ => ⟨GoValue.null, none⟩
  composeListProjects := ⟨GoValue.null, none⟩

/-! ## Dispatch boundary (HTTPClient.executeTask, WebSocketClient.executeTask)

The call ws.taskManager.ExecuteTask either returns a value-and-error pair
or panics inside a handler.  Neither executeTask contains a recover, so
in the embedding a panicking call yields a crashed dispatch result: the
panic escapes the goroutine and aborts the process. -/

inductive CallBehavior where
  | returns (r : ExecReturn)
  | panics (msg : String)

/-- The result-map normalization shared by both executeTask functions
(http_client.go lines 166 to 174, websocket_client.go lines 217 to 225):
nil stays nil, a map passes through, anything else is wrapped under the
"data" key. -/
def normalizeResult : GoValue → Option (List (String × GoValue))
  | GoValue.null => none
  | GoValue.obj m => some m
  | v => some [("data", v)]

inductive DispatchResult where
  | reported (r : SubmitTaskResultDto)
  | crashed (msg : String)

/-- HTTPClient.executeTask (http_client.go lines 160 to 196) around the
manager call: handler errors become a failed SubmitTaskResultDto (the
Result field is only set on success), and a panic escapes because the
function installs no recover. -/
def HTTPExecuteTask (call : CallBehavior) : DispatchResult :=
  match call with
  | CallBehavior.panics m => DispatchResult.crashed m
  | CallBehavior.returns r =>
    let resultMap := normalizeResult r.result
    match r.err with
    | some m =>
      DispatchResult.reported { status := TaskStatusFailed, result := none, error := some m }
    | none =>
      DispatchResult.reported { status := TaskStatusCompleted, result := resultMap, error := none }

/-- The dispatch of a task through the manager and the HTTP result path. -/
def HTTPDispatch (env : TaskEnv) (task : TaskRequest) : DispatchResult :=
  HTTPExecuteTask (CallBehavior.returns (ManagerExecuteTask env task.type task.payload))

structure WSTaskResult where
  taskId : String
  status : AgentTaskStatus
  result : Option (List (String × GoValue))
  error : Option String

inductive WSDispatchResult where
  | sent (msgType : String) (r : WSTaskResult)
  | crashed (msg : String)

/-- WebSocketClient.executeTask (websocket_client.go lines 211 to 254)
around the manager call: the task_result message always carries the
normalized result map, carries the error string only on failure, and a
panic escapes because the function installs no recover. -/
def WSExecuteTask (task : TaskRequest) (call : CallBehavior) : WSDispatchResult :=
  match call with
  | CallBehavior.panics m => WSDispatchResult.crashed m
  | CallBehavior.returns r =>
    let resultMap := normalizeResult r.result
    match r.err with
    | some m =>
      WSDispatchResult.sent "task_result" ⟨task.id, TaskStatusFailed, resultMap, some m⟩
    | none =>
      WSDispatchResult.sent "task_result" ⟨task.id, TaskStatusCompleted, resultMap, none⟩

/-! ## Polling fallback (unnamed/part_003: HTTPClient.pollForTasks and
makeRequest)

The HTTP exchange underlying one makeRequest call is either a transport
error from httpClient.Do (for example a refused connection) or a response
with a status code and a body.  The json.Unmarshal step is supplied as a
decoder parameter from the body to a TasksResponse or a decode error
message. -/

inductive HTTPExchange where
  | transportError (msg : String)
  | response (statusCode : Nat) (statusText : String) (body : String)

abbrev TasksDecoder := String → Except String TasksResponse

/-- Whether the pattern occurs at the head of the character list. -/
def leadsWith : List Char → List Char → Bool
  | [], _ => true
  | _ :: _, [] => false
  | p :: ps, c :: cs => p == c && leadsWith ps cs

/-- Substring occurrence on character lists. -/
def charListContains (pat : List Char) : List Char → Bool
  | [] => leadsWith pat []
  | c :: cs => leadsWith pat (c :: cs) || charListContains pat cs

/-- Model of strings.Contains. -/
def strContains (s pat : String) : Bool :=
  charListContains pat.toList s.toList

/-- makeRequest (part_003 lines 191 to 254) for a GET with a TasksResponse
target: a Do error is wrapped as "request failed: ", a status of 400 or
more becomes an HTTP error, a nonempty body is unmarshalled (a decode
failure is wrapped as "failed to unmarshal response: "), and an empty body
leaves the response at its zero value. -/
def makeRequestTasks (unmarshal : TasksDecoder) (x : HTTPExchange) : Except String TasksResponse :=
  match x with
  | HTTPExchange.transportError m => Except.error ("request failed: " ++ m)
  | HTTPExchange.response code stext body =>
    if 400 ≤ code then
      Except.error ("HTTP " ++ toString code ++ ": " ++ stext ++ " - " ++ body)
    else if 0 < body.length then
      match unmarshal body with
      | Except.ok r => Except.ok r
      | Except.error e => Except.error ("failed to unmarshal response: " ++ e)
    else Except.ok ⟨false, [], ""⟩

/-- HTTPClient.pollForTasks (part_003 lines 110 to 151): an error whose
message contains "invalid character" is swallowed, a response with
success=false is logged and swallowed, and otherwise the pending tasks
are dispatched (returned here as the ok payload). -/
def pollForTasks (unmarshal : TasksDecoder) (x : HTTPExchange) : Except String (List TaskRequest) :=
  match makeRequestTasks unmarshal x with
  | Except.error e =>
    if strContains e "invalid character" then Except.ok [] else Except.error e
  | Except.ok r =>
    if r.success = false then Except.ok [] else Except.ok r.data

/-- json.Unmarshal into TasksResponse modelled at a few concrete bodies.
encoding/json reports "unexpected end of JSON input" for the truncated
body consisting of one opening brace, and an invalid-character syntax
error for an HTML body (the real Go message quotes the offending
character; the quotes are elided here).  Used only by witnesses and
counterexamples at exactly these bodies. -/
def goDecodeSample : TasksDecoder := fun body =>
  if body = "\x7b" then Except.error "unexpected end of JSON input"
  else if body = "<html>" then
    Except.error "invalid character < looking for beginning of value"
  else if body = "\x7b\"success\":false\x7d" then Except.ok ⟨false, [], ""⟩
  else Except.ok ⟨true, [], ""⟩

/-! ## HTTPClient.Start and its polling loop (internal/agent/http_client.go
lines 46 to 74)

Start registers first and aborts on a registration error; on success it
enters the polling loop, which on every tick sends a heartbeat and polls
for tasks, and exits only on context cancellation. -/

inductive StartEvent where
  | tick
  | shutdown

inductive SessionAction where
  | heartbeat
  | poll

/-- The loop body of HTTPClient.Start: each ticker fire performs
sendHeartbeat then pollForTasks; ctx.Done ends the loop. -/
def pollingLoop : List StartEvent → List SessionAction
  | [] => []
  | StartEvent.shutdown :: _ => []
  | StartEvent.tick :: rest => SessionAction.heartbeat :: SessionAction.poll :: pollingLoop rest

/-- The observable outcome of HTTPClient.Start: the error it returned at
the registration gate, if any, and the session actions performed. -/
structure StartRun where
  regError : Option String
  actions : List SessionAction

/-- HTTPClient.Start: registerAgent is called first; on error Start
returns "failed to register: " and performs no session activity, and on
success it runs the polling loop over the given events. -/
def HTTPStart (reg : Except String Unit) (events : List StartEvent) : StartRun :=
  match reg with
  | Except.error m => { regError := some ("failed to register: " ++ m), actions := [] }
  | Except.ok _ => { regError := none, actions := pollingLoop events }

/-! ## Heartbeat loop (websocket_client.go lines 256 to 272)

The loop reacts to ticker fires, to the connected flag being rewritten by
connect, handleDisconnection and disconnect, and to cancellation.  On a
tick it calls sendHeartbeat only when isConnected() reports true. -/

inductive HBEvent where
  | tick
  | setConnected (b : Bool)
  | stop

/-- WebSocketClient.heartbeatLoop: one SessionAction.heartbeat per tick
that passes the isConnected() gate. -/
def heartbeatLoopRun (connected : Bool) : List HBEvent → List SessionAction
  | [] => []
  | HBEvent.stop :: _ => []
  | HBEvent.setConnected b :: rest => heartbeatLoopRun b rest
  | HBEvent.tick :: rest =>
    if connected then SessionAction.heartbeat :: heartbeatLoopRun connected rest
    else heartbeatLoopRun connected rest

/-! ## Read loop and message handling (websocket_client.go lines 132 to 209)

An inbound frame is represented by its two decode results: the base
WSMessage decode (of which only the type string matters) and the
WSTaskMessage decode. -/

structure WSTaskMessage where
  taskId : String
  command : String
  payload : Payload

inductive RawFrame where
  | undecodable
  | decoded (msgType : String) (task : Option WSTaskMessage)

inductive WSOut where
  | send (msgType : String)
  | spawnTask (t : TaskRequest)

/-- WebSocketClient.handleMessage: a frame whose base decode fails is
dropped; a task frame that parses spawns executeTask; a ping frame is
answered with sendMessage "pong" (sendMessage drops the send when not
connected); other types are ignored. -/
def handleMessage (connected : Bool) : RawFrame → List WSOut
  | RawFrame.undecodable => []
  | RawFrame.decoded msgType taskDec =>
    match msgType with
    | "task" =>
      match taskDec with
      | none => []
      | some tm => [WSOut.spawnTask ⟨tm.taskId, tm.command, tm.payload⟩]
    | "ping" => if connected then [WSOut.send "pong"] else []
    | _ => []

/-- WebSocketClient.messageLoop: frames are read and handled one at a
time, so all output for a frame is emitted before the next frame is
processed. -/
def messageLoopRun (connected : Bool) : List RawFrame → List WSOut
  | [] => []
  | f :: rest => handleMessage connected f ++ messageLoopRun connected rest

/-! ## Session loops and reconnection

Three loops appear in the source.  Agent.Start in agent.go lines 120 to
161 counts consecutive failed connection attempts and gives up at ten;
Agent.Start in unnamed/part_006 lines 43 to 64 retries forever with the
configured ReconnectDelay between attempts; and
WebSocketClient.reconnectLoop (websocket_client.go lines 358 to 389)
reacts to reconnect signals forever.  Every connect() in the first two
loops also sends the registration message, so an event
ConnEvent.succeedsThenDrops is a run segment with a successful
registration followed by a later disconnect. -/

inductive ConnEvent where
  | fails
  | succeedsThenDrops
  | shutdownSignal

inductive SessionLoopResult where
  | running
  | shutdownExit
  | gaveUp (msg : String)

/-- Agent.Start from agent.go lines 120 to 161: reconnectAttempts is
incremented before each attempt, reset to zero on success, and when it
reaches maxReconnectAttempts = 10 after a failure the loop returns an
error.  Between retries the loop sleeps ReconnectDelay. -/
def agentStartLoop (reconnectAttempts : Nat) : List ConnEvent → SessionLoopResult
  | [] => SessionLoopResult.running
  | ConnEvent.shutdownSignal :: _ => SessionLoopResult.shutdownExit
  | ConnEvent.fails :: rest =>
    if 10 ≤ reconnectAttempts + 1 then
      SessionLoopResult.gaveUp "failed to connect after 10 attempts"
    else agentStartLoop (reconnectAttempts + 1) rest
  | ConnEvent.succeedsThenDrops :: rest => agentStartLoop 0 rest

/-- Agent.Start from unnamed/part_006 lines 43 to 64: a failed connect is
logged, the loop sleeps ReconnectDelay and retries; a dropped session is
followed by the same sleep and retry; only ctx.Done ends the loop. -/
def agentStartLoopV0 : List ConnEvent → SessionLoopResult
  | [] => SessionLoopResult.running
  | ConnEvent.shutdownSignal :: _ => SessionLoopResult.shutdownExit
  | ConnEvent.fails :: rest => agentStartLoopV0 rest
  | ConnEvent.succeedsThenDrops :: rest => agentStartLoopV0 rest

inductive WSREvent where
  | signalWhileConnected
  | signalConnectOk
  | signalConnectFails
  | stop

/-- WebSocketClient.reconnectLoop: a reconnect signal while connected is
skipped; otherwise the loop disconnects, sleeps ReconnectDelay and
redials, and on failure schedules another signal through time.AfterFunc;
only ctx.Done or stopCh ends the loop. -/
def reconnectLoopRun : List WSREvent → SessionLoopResult
  | [] => SessionLoopResult.running
  | WSREvent.stop :: _ => SessionLoopResult.shutdownExit
  | WSREvent.signalWhileConnected :: rest => reconnectLoopRun rest
  | WSREvent.signalConnectOk :: rest => reconnectLoopRun rest
  | WSREvent.signalConnectFails :: rest => reconnectLoopRun rest

/-! ## Agent.Stop and Agent.Start shutdown (agent.go lines 47 to 77)

The shutdown channel is used only for close signalling, so its state is
whether it has been closed.  Closing an already closed Go channel is a
runtime panic, modelled as the error branch of closeChan. -/

def closeChan (closed : Bool) : Except String Bool :=
  if closed then Except.error "close of closed channel"
  else Except.ok true

/-- Agent.Stop: the select takes the receive case when the channel is
already closed and returns, and otherwise takes the default case and
closes the channel. -/
def AgentStop (closed : Bool) : Except String Bool :=
  if closed then Except.ok closed
  else closeChan closed

/-- n sequential calls of Agent.Stop, threading the channel state and
propagating a panic. -/
def stopIter : Nat → Bool → Except String Bool
  | 0, s => Except.ok s
  | n + 1, s =>
    match AgentStop s with
    | Except.ok t => stopIter n t
    | Except.error e => Except.error e

/-- The receive from the shutdown channel at the top of Agent.Start:
blocked while the channel is open, and once it is closed Start proceeds
and returns nil. -/
def agentStartWait (closed : Bool) : Option (Except String Unit) :=
  if closed then some (Except.ok ()) else none

/-- A Go value is a scalar when it is a string, number or boolean: not a
map, not an array, and not nil. -/
def GoValue.isScalar : GoValue → Bool
  | GoValue.str _ => true
  | GoValue.num _ => true
  | GoValue.bool _ => true
  | _ => false

/-! ## Theorems -/

/-- Claim C2, amended: a handler that returns an error yields a reported
TaskOutcome with status failed carrying the error message, and the
dispatcher does not propagate it; but a handler panic is not caught at
the dispatch boundary (neither executeTask installs a recover), so it
escapes and crashes the agent process instead of being converted into a
failed outcome. -/
theorem C2_panic_amended (task : TaskRequest) (res : GoValue) (m : String) :
    HTTPExecuteTask (CallBehavior.returns ⟨res, some m⟩) =
      DispatchResult.reported ⟨TaskStatusFailed, none, some m⟩ ∧
    WSExecuteTask task (CallBehavior.returns ⟨res, some m⟩) =
      WSDispatchResult.sent "task_result" ⟨task.id, TaskStatusFailed, normalizeResult res, some m⟩ ∧
    HTTPExecuteTask (CallBehavior.panics m) = DispatchResult.crashed m ∧
    WSExecuteTask task (CallBehavior.panics m) = WSDispatchResult.crashed m :=
  ⟨rfl, rfl, rfl, rfl⟩

/-- Claim C2, counterexample: a handler panic with message "boom" is not
converted into a failed TaskOutcome; the dispatch crashes instead. -/
theorem C2_panic_counterexample :
    HTTPExecuteTask (CallBehavior.panics "boom") = DispatchResult.crashed "boom" ∧
    HTTPExecuteTask (CallBehavior.panics "boom") ≠
      DispatchResult.reported ⟨TaskStatusFailed, none, some "boom"⟩ :=
  ⟨rfl, fun h => DispatchResult.noConfusion h⟩

/-- Claim C3: for every task whose type string is not in the handler
registry, Manager.ExecuteTask returns the error "unknown task type: "
followed by the type, for every environment of handlers (so no handler is
invoked), and the dispatch reports a failed outcome with exactly that
error instead of terminating. -/
theorem C3_unknown_type (env : TaskEnv) (task : TaskRequest)
    (h : task.type ∉ knownTaskTypes) :
    ManagerExecuteTask env task.type task.payload =
      ⟨GoValue.null, some ("unknown task type: " ++ task.type)⟩ ∧
    HTTPDispatch env task =
      DispatchResult.reported
        ⟨TaskStatusFailed, none, some ("unknown task type: " ++ task.type)⟩ := by
  have hm : ManagerExecuteTask env task.type task.payload =
      ⟨GoValue.null, some ("unknown task type: " ++ task.type)⟩ := by
    simp only [knownTaskTypes, List.mem_cons, List.mem_singleton, not_or] at h
    unfold ManagerExecuteTask
    split
    all_goals first
      | rfl
      | (exfalso; simp_all)
  refine ⟨hm, ?_⟩
  unfold HTTPDispatch
  rw [hm]
  rfl

theorem C3_unknown_type_witness :
    ManagerExecuteTask defaultEnv "bogus" [] =
      ⟨GoValue.null, some ("unknown task type: " ++ "bogus")⟩ ∧
    HTTPDispatch defaultEnv ⟨"t1", "bogus", []⟩ =
      DispatchResult.reported
        ⟨TaskStatusFailed, none, some ("unknown task type: " ++ "bogus")⟩ :=
  C3_unknown_type defaultEnv ⟨"t1", "bogus", []⟩ (by decide)

/-- Claim C5: when registration fails, HTTPClient.Start aborts with the
wrapped registration error and performs no session activity (no
heartbeat, no polling); when registration succeeds it proceeds into the
polling loop, each tick of which sends a heartbeat and polls for tasks. -/
theorem C5_registration_gate (m : String) (evts : List StartEvent) :
    HTTPStart (Except.error m) evts = ⟨some ("failed to register: " ++ m), []⟩ ∧
    HTTPStart (Except.ok ()) evts = ⟨none, pollingLoop evts⟩ ∧
    pollingLoop (StartEvent.tick :: evts) =
      SessionAction.heartbeat :: SessionAction.poll :: pollingLoop evts :=
  ⟨rfl, rfl, rfl⟩

/-- Claim C6: a successful handler result that is already a map is passed
through unchanged, and a scalar result v is wrapped into the one-entry
map with key "data"; the dispatcher reports exactly that map on the
completed outcome. -/
theorem C6_result_normalization (mres : List (String × GoValue)) (v : GoValue)
    (hv : v.isScalar = true) :
    normalizeResult (GoValue.obj mres) = some mres ∧
    normalizeResult v = some [("data", v)] ∧
    HTTPExecuteTask (CallBehavior.returns ⟨GoValue.obj mres, none⟩) =
      DispatchResult.reported ⟨TaskStatusCompleted, some mres, none⟩ ∧
    HTTPExecuteTask (CallBehavior.returns ⟨v, none⟩) =
      DispatchResult.reported ⟨TaskStatusCompleted, some [("data", v)], none⟩ := by
  cases v <;> simp_all [GoValue.isScalar, normalizeResult, HTTPExecuteTask]

theorem C6_result_normalization_witness :
    normalizeResult (GoValue.obj [("output", GoValue.str "hi")]) =
      some [("output", GoValue.str "hi")] ∧
    normalizeResult (GoValue.str "42") = some [("data", GoValue.str "42")] ∧
    HTTPExecuteTask (CallBehavior.returns ⟨GoValue.obj [("output", GoValue.str "hi")], none⟩) =
      DispatchResult.reported ⟨TaskStatusCompleted, some [("output", GoValue.str "hi")], none⟩ ∧
    HTTPExecuteTask (CallBehavior.returns ⟨GoValue.str "42", none⟩) =
      DispatchResult.reported
        ⟨TaskStatusCompleted, some [("data", GoValue.str "42")], none⟩ :=
  C6_result_normalization [("output", GoValue.str "hi")] (GoValue.str "42") rfl

/-- Claim C7: a heartbeat tick that arrives while the connected flag is
false attempts no send, and after the flag returns to true the next tick
attempts a send. -/
theorem C7_heartbeat_suspension (evts : List HBEvent) (b : Bool) :
    heartbeatLoopRun false (HBEvent.tick :: evts) = heartbeatLoopRun false evts ∧
    heartbeatLoopRun b (HBEvent.setConnected true :: HBEvent.tick :: evts) =
      SessionAction.heartbeat :: heartbeatLoopRun true evts :=
  ⟨rfl, rfl⟩

/-- Claim C8: an inbound ping frame handled while connected produces
exactly one pong send, and in the read loop that pong is emitted before
any output of the following frames. -/
theorem C8_ping_pong (frames : List RawFrame) (taskDec : Option WSTaskMessage) :
    handleMessage true (RawFrame.decoded "ping" taskDec) = [WSOut.send "pong"] ∧
    messageLoopRun true (RawFrame.decoded "ping" taskDec :: frames) =
      WSOut.send "pong" :: messageLoopRun true frames :=
  ⟨rfl, rfl⟩

theorem agentStartLoop_fails_running (k a : Nat) (h : a + k ≤ 9) :
    agentStartLoop a (List.replicate k ConnEvent.fails) = SessionLoopResult.running := by
  induction k generalizing a with
  | zero => rfl
  | succ n ih =>
    rw [List.replicate_succ]
    unfold agentStartLoop
    rw [if_neg (by omega)]
    exact ih (a + 1) (by omega)

theorem agentStartLoopV0_never_gives_up (evts : List ConnEvent) (m : String) :
    agentStartLoopV0 evts ≠ SessionLoopResult.gaveUp m := by
  induction evts with
  | nil => exact fun h => SessionLoopResult.noConfusion h
  | cons e rest ih =>
    cases e with
    | fails => exact ih
    | succeedsThenDrops => exact ih
    | shutdownSignal => exact fun h => SessionLoopResult.noConfusion h

theorem reconnectLoopRun_never_gives_up (sigs : List WSREvent) (m : String) :
    reconnectLoopRun sigs ≠ SessionLoopResult.gaveUp m := by
  induction sigs with
  | nil => exact fun h => SessionLoopResult.noConfusion h
  | cons e rest ih =>
    cases e with
    | signalWhileConnected => exact ih
    | signalConnectOk => exact ih
    | signalConnectFails => exact ih
    | stop => exact fun h => SessionLoopResult.noConfusion h

/-- Claim C1, amended: in the part_006 session loop and in
WebSocketClient.reconnectLoop a failed connection attempt never
terminates the loop: the loop sleeps the configured reconnect delay and
goes on to the remaining events, for an unbounded number of attempts,
ending only on explicit shutdown; the Agent.Start variant in agent.go,
however, tolerates at most nine consecutive failed attempts and returns a
connection error on the tenth, even after a successful registration. -/
theorem C1_unbounded_retry_amended (m : String) (evts : List ConnEvent)
    (sigs : List WSREvent) (k : Nat) (hk : k ≤ 9) :
    agentStartLoopV0 evts ≠ SessionLoopResult.gaveUp m ∧
    agentStartLoopV0 (ConnEvent.fails :: evts) = agentStartLoopV0 evts ∧
    reconnectLoopRun sigs ≠ SessionLoopResult.gaveUp m ∧
    reconnectLoopRun (WSREvent.signalConnectFails :: sigs) = reconnectLoopRun sigs ∧
    agentStartLoop 0 (List.replicate k ConnEvent.fails) = SessionLoopResult.running ∧
    agentStartLoop 0 (List.replicate 10 ConnEvent.fails) =
      SessionLoopResult.gaveUp "failed to connect after 10 attempts" :=
  ⟨agentStartLoopV0_never_gives_up evts m, rfl,
   reconnectLoopRun_never_gives_up sigs m, rfl,
   agentStartLoop_fails_running k 0 (by omega), rfl⟩

theorem C1_unbounded_retry_witness :
    agentStartLoopV0 [ConnEvent.fails] ≠ SessionLoopResult.gaveUp "refused" ∧
    agentStartLoop 0 (List.replicate 9 ConnEvent.fails) = SessionLoopResult.running :=
  ⟨(C1_unbounded_retry_amended "refused" [ConnEvent.fails] [] 9 (by decide)).1,
   (C1_unbounded_retry_amended "refused" [ConnEvent.fails] [] 9 (by decide)).2.2.2.2.1⟩

/-- Claim C1, counterexample: a run of the agent.go Agent.Start that
connects and registers once successfully and then fails ten consecutive
reconnection attempts terminates the session loop with a connection
error, neither a registration failure nor a shutdown. -/
theorem C1_unbounded_retry_counterexample :
    agentStartLoop 0 (ConnEvent.succeedsThenDrops :: List.replicate 10 ConnEvent.fails) =
      SessionLoopResult.gaveUp "failed to connect after 10 attempts" := rfl

/-- Claim C4, amended: an empty pending-tasks body and a body whose
json decode error mentions an invalid character (an HTML page or other
plain text) cause pollForTasks to return no error, as does a well-formed
response with success=false; transport errors and statuses of 400 and
above are returned as errors; but a body that is not valid JSON because
it is truncated, whose decode error does not mention an invalid
character, is also returned as an error. -/
theorem C4_no_tasks_amended (u : TasksDecoder) (c : Nat) (st body m e : String)
    (r : TasksResponse) :
    (c < 400 → pollForTasks u (HTTPExchange.response c st "") = Except.ok []) ∧
    (c < 400 → 0 < body.length → u body = Except.ok r → r.success = false →
       pollForTasks u (HTTPExchange.response c st body) = Except.ok []) ∧
    (c < 400 → 0 < body.length → u body = Except.error e →
       strContains ("failed to unmarshal response: " ++ e) "invalid character" = true →
       pollForTasks u (HTTPExchange.response c st body) = Except.ok []) ∧
    (c < 400 → 0 < body.length → u body = Except.error e →
       strContains ("failed to unmarshal response: " ++ e) "invalid character" = false →
       pollForTasks u (HTTPExchange.response c st body) =
         Except.error ("failed to unmarshal response: " ++ e)) ∧
    (strContains ("request failed: " ++ m) "invalid character" = false →
       pollForTasks u (HTTPExchange.transportError m) =
         Except.error ("request failed: " ++ m)) ∧
    (400 ≤ c →
       strContains ("HTTP " ++ toString c ++ ": " ++ st ++ " - " ++ body)
         "invalid character" = false →
       pollForTasks u (HTTPExchange.response c st body) =
         Except.error ("HTTP " ++ toString c ++ ": " ++ st ++ " - " ++ body)) := by
  refine ⟨?_, ?_, ?_, ?_, ?_, ?_⟩
  · intro hc
    simp [pollForTasks, makeRequestTasks, Nat.not_le.mpr hc]
  · intro hc hlen hu hs
    simp [pollForTasks, makeRequestTasks, Nat.not_le.mpr hc, hlen, hu, hs]
  · intro hc hlen hu hcontains
    simp [pollForTasks, makeRequestTasks, Nat.not_le.mpr hc, hlen, hu, hcontains]
  · intro hc hlen hu hcontains
    simp [pollForTasks, makeRequestTasks, Nat.not_le.mpr hc, hlen, hu, hcontains]
  · intro hcontains
    simp [pollForTasks, makeRequestTasks, hcontains]
  · intro hc hcontains
    simp [pollForTasks, makeRequestTasks, hc, hcontains]

theorem C4_no_tasks_witness :
    pollForTasks goDecodeSample (HTTPExchange.response 200 "200 OK" "") = Except.ok [] ∧
    pollForTasks goDecodeSample
        (HTTPExchange.response 200 "200 OK" "\x7b\"success\":false\x7d") = Except.ok [] ∧
    pollForTasks goDecodeSample (HTTPExchange.response 200 "200 OK" "<html>") =
      Except.ok [] ∧
    pollForTasks goDecodeSample (HTTPExchange.response 200 "200 OK" "\x7b") =
      Except.error ("failed to unmarshal response: " ++ "unexpected end of JSON input") ∧
    pollForTasks goDecodeSample (HTTPExchange.transportError "connection refused") =
      Except.error ("request failed: " ++ "connection refused") ∧
    pollForTasks goDecodeSample (HTTPExchange.response 500 "500 Internal Server Error" "oops") =
      Except.error ("HTTP " ++ toString 500 ++ ": " ++ "500 Internal Server Error" ++
        " - " ++ "oops") :=
  ⟨(C4_no_tasks_amended goDecodeSample 200 "200 OK" "" "" "" ⟨false, [], ""⟩).1
     (by decide),
   (C4_no_tasks_amended goDecodeSample 200 "200 OK" "\x7b\"success\":false\x7d" "" ""
       ⟨false, [], ""⟩).2.1 (by decide) (by decide) rfl rfl,
   (C4_no_tasks_amended goDecodeSample 200 "200 OK" "<html>" ""
       "invalid character < looking for beginning of value" ⟨false, [], ""⟩).2.2.1
     (by decide) (by decide) rfl (by decide),
   (C4_no_tasks_amended goDecodeSample 200 "200 OK" "\x7b" ""
       "unexpected end of JSON input" ⟨false, [], ""⟩).2.2.2.1
     (by decide) (by decide) rfl (by decide),
   (C4_no_tasks_amended goDecodeSample 200 "200 OK" "" "connection refused" ""
       ⟨false, [], ""⟩).2.2.2.2.1 (by decide),
   (C4_no_tasks_amended goDecodeSample 500 "500 Internal Server Error" "oops" "" ""
       ⟨false, [], ""⟩).2.2.2.2.2 (by decide) (by decide)⟩

/-- Claim C4, counterexample: a pending-tasks body consisting of a single
opening brace is not valid JSON, yet pollForTasks returns an error for
it, because the decode error "unexpected end of JSON input" produced by
the Go json package for truncated input does not contain the substring
"invalid character" that pollForTasks swallows. -/
theorem C4_no_tasks_counterexample :
    pollForTasks goDecodeSample (HTTPExchange.response 200 "200 OK" "\x7b") =
      Except.error "failed to unmarshal response: unexpected end of JSON input" := rfl

/-- Claim C9: when the payload carries an image name and the underlying
Docker pull fails, executeImagePull returns a result map containing
"status"="failed" together with a nil error, so the dispatcher reports
the task with status completed rather than failed. -/
theorem C9_image_pull_failure (env : TaskEnv) (tid : String) (p : Payload)
    (image e : String)
    (himg : imageNameOf p = some image)
    (hfail : (env.pullImage image).err = some e) :
    ManagerExecuteTask env "image_pull" p =
      ⟨GoValue.obj [("status", GoValue.str "failed"),
                    ("error", GoValue.str ("Failed to pull image " ++ image ++ ": " ++ e))],
       none⟩ ∧
    HTTPDispatch env ⟨tid, "image_pull", p⟩ =
      DispatchResult.reported
        ⟨TaskStatusCompleted,
         some [("status", GoValue.str "failed"),
               ("error", GoValue.str ("Failed to pull image " ++ image ++ ": " ++ e))],
         none⟩ := by
  have hm : ManagerExecuteTask env "image_pull" p =
      ⟨GoValue.obj [("status", GoValue.str "failed"),
                    ("error", GoValue.str ("Failed to pull image " ++ image ++ ": " ++ e))],
       none⟩ := by
    unfold ManagerExecuteTask executeImagePull
    rw [himg]
    simp [hfail]
  refine ⟨hm, ?_⟩
  unfold HTTPDispatch
  rw [show (TaskRequest.mk tid "image_pull" p).type = "image_pull" from rfl,
      show (TaskRequest.mk tid "image_pull" p).payload = p from rfl, hm]
  rfl

def failingPullEnv : TaskEnv :=
  { defaultEnv with pullImage := fun _ => ⟨GoValue.null, some "no docker daemon"⟩ }

theorem C9_image_pull_failure_witness :
    ManagerExecuteTask failingPullEnv "image_pull" [("image", GoValue.str "nginx")] =
      ⟨GoValue.obj [("status", GoValue.str "failed"),
                    ("error", GoValue.str ("Failed to pull image " ++ "nginx" ++ ": " ++
                      "no docker daemon"))],
       none⟩ ∧
    HTTPDispatch failingPullEnv ⟨"t1", "image_pull", [("image", GoValue.str "nginx")]⟩ =
      DispatchResult.reported
        ⟨TaskStatusCompleted,
         some [("status", GoValue.str "failed"),
               ("error", GoValue.str ("Failed to pull image " ++ "nginx" ++ ": " ++
                 "no docker daemon"))],
         none⟩ :=
  C9_image_pull_failure failingPullEnv "t1" [("image", GoValue.str "nginx")]
    "nginx" "no docker daemon" rfl rfl

theorem stopIter_closed_ok (n : Nat) : stopIter n true = Except.ok true := by
  induction n with
  | zero => rfl
  | succ k ih => exact ih

/-- Claim C10: Agent.Stop is idempotent: any positive number of
sequential Stop calls, from either channel state, ends with the channel
closed and never hits the close-of-closed-channel panic; a Stop on the
already closed channel leaves its state unchanged; and Start, blocked on
the shutdown channel, unblocks once the channel is closed and returns
nil. -/
theorem C10_stop_idempotent (n : Nat) (s : Bool) :
    stopIter (n + 1) s = Except.ok true ∧
    AgentStop true = Except.ok true ∧
    agentStartWait true = some (Except.ok ()) ∧
    agentStartWait false = none := by
  refine ⟨?_, rfl, rfl, rfl⟩
  cases s
  · exact stopIter_closed_ok n
  · exact stopIter_closed_ok n

end ArcaneAgent
